import Mathlib

/-!
# VozNote — shallow embedding of the recording-to-note core

Definitions are translated from the TypeScript sources of the repository:
* `src/types.ts`            — `Note`, `ProcessingStatus`
* `src/App.tsx`             — main app variant (`startRecording`, `stopRecording`,
                              `processAudio`, `saveNote`, `addTag`, `formatTime`,
                              note loading/saving effects)
* `src/voznote-ai/App.tsx`  — `voznote-ai` variant (`processAudio` without the
                              `COMPLETED`/`ERROR` status writes, `filteredNotes`
                              searching title/summary/tags, unguarded JSON load)
* `src/voznote-ai (1)/App.tsx` — second variant (`filteredNotes` searching
                              title/summary only, unguarded JSON load)
* `src/services/ai.ts`, `src/voznote-ai/services/geminiService.ts`
                              — `transcribeAudio` / `summarizeText` result handling
                              (`response.text || ""`).

Browser values are modelled as follows: a `Blob` chunk is its byte list
(`List Nat`), `Blob.size` is the list length, `localStorage` content is an
`Option String`, a possibly-undefined JS string is an `Option String`, and a
thrown exception is the `Except.error` branch of an `Except`.
-/

namespace VozNote

/-- Note, from `src/types.ts` (the persisted fields; the optional `audioUrl`
of the `voznote-ai (1)` variant is excluded from persistence there). -/
structure Note where
  id : String
  title : String
  date : String
  durationFormatted : String
  transcription : String
  summary : String
  tags : List String
deriving DecidableEq, Repr

/-- ProcessingStatus, from `src/types.ts`. -/
inductive ProcessingStatus where
  | IDLE
  | TRANSCRIBING
  | SUMMARIZING
  | COMPLETED
  | ERROR
deriving DecidableEq, Repr

/-! ## NoteStore: `saveNote` (src/App.tsx lines 224-235, identical in both
variants) -/

/-- The state update of `saveNote` on the `notes` array:
`const exists = prev.find(n => n.id === activeNote.id);`
`if (exists) return prev.map(n => n.id === activeNote.id ? activeNote : n);`
`return [activeNote, ...prev];` -/
def saveNote (prev : List Note) (activeNote : Note) : List Note :=
  if prev.any (fun n => n.id == activeNote.id) then
    prev.map (fun n => if n.id == activeNote.id then activeNote else n)
  else
    activeNote :: prev

/-! ## Tags: `addTag` (src/App.tsx lines 324-336) -/

/-- JS `String.prototype.trim()`: strip whitespace from both ends. -/
def jsTrim (s : String) : String :=
  ⟨((s.data.dropWhile Char.isWhitespace).reverse.dropWhile Char.isWhitespace).reverse⟩

/-- The update of `addTag` on `activeNote.tags` given the text field `tagInput`:
`if (!tagInput.trim()) return;` (empty string is falsy)
`const newTag = tagInput.trim();`
`if (!currentTags.includes(newTag)) tags = [...currentTags, newTag]`. -/
def addTag (currentTags : List String) (tagInput : String) : List String :=
  if jsTrim tagInput = "" then currentTags
  else if currentTags.contains (jsTrim tagInput) then currentTags
  else currentTags ++ [jsTrim tagInput]

/-! ### Helper lemmas for `saveNote` -/

theorem repl_idem (a x : Note) :
    (if (if x.id == a.id then a else x).id == a.id then a
     else (if x.id == a.id then a else x)) = (if x.id == a.id then a else x) := by
  by_cases hx : x.id = a.id
  · simp [hx]
  · simp [hx]

theorem any_saveNote (s : List Note) (a : Note) :
    (saveNote s a).any (fun n => n.id == a.id) = true := by
  unfold saveNote
  by_cases h : s.any (fun n => n.id == a.id) = true
  · rw [if_pos h]
    rcases List.any_eq_true.mp h with ⟨x, hx, hpx⟩
    have hfx : (if x.id == a.id then a else x) = a := by
      rw [if_pos hpx]
    have hmem : a ∈ s.map (fun n => if n.id == a.id then a else n) :=
      List.mem_map.mpr ⟨x, hx, hfx⟩
    exact List.any_eq_true.mpr ⟨a, hmem, by simp⟩
  · rw [if_neg h]
    apply List.any_eq_true.mpr
    exact ⟨a, List.mem_cons_self a s, by simp⟩

theorem map_id_of_not_any (s : List Note) (a : Note)
    (h : s.any (fun n => n.id == a.id) = false) :
    s.map (fun n => if n.id == a.id then a else n) = s := by
  induction s with
  | nil => rfl
  | cons x t ih =>
    rw [List.any_cons, Bool.or_eq_false_iff] at h
    rw [List.map_cons, ih h.2]
    have hx : (x.id == a.id) = false := h.1
    rw [if_neg (by simp [hx])]

theorem saveNote_idem (s : List Note) (a : Note) :
    saveNote (saveNote s a) a = saveNote s a := by
  have hany := any_saveNote s a
  by_cases h : s.any (fun n => n.id == a.id) = true
  · unfold saveNote at hany ⊢
    rw [if_pos h] at hany ⊢
    rw [if_pos hany, List.map_map]
    apply List.map_congr_left
    intro x _
    exact repl_idem a x
  · unfold saveNote at hany ⊢
    rw [if_neg h] at hany ⊢
    rw [if_pos hany, List.map_cons, if_pos (by simp),
      map_id_of_not_any s a (by simpa using h)]

/-- Concrete note with id "A" (for witnesses and counterexamples). -/
def noteA : Note :=
  { id := "A", title := "Weekly Sync", date := "01/01/2026", durationFormatted := "00:10",
    transcription := "t", summary := "s", tags := [] }

/-- Concrete note with id "B" (for witnesses and counterexamples). -/
def noteB : Note :=
  { id := "B", title := "Standup", date := "02/01/2026", durationFormatted := "00:20",
    transcription := "t2", summary := "s2", tags := [] }

/-- C4: `saveNote` is insert-or-replace keyed by `id`: when the id is already
present it replaces in place (same length, element at every position is the old
element unless its id matches, in which case it is the new note), committing
the same note twice equals committing it once, a fresh id is inserted at the
front, and committing fresh notes A then B yields [B, A]. -/
theorem saveNote_insert_or_replace (s : List Note) (a b : Note) :
    (s.any (fun n => n.id == a.id) = true →
      (saveNote s a).length = s.length ∧
      ∀ i : Nat, (saveNote s a)[i]? =
        (s[i]?).map (fun n => if n.id == a.id then a else n)) ∧
    (saveNote (saveNote s a) a = saveNote s a) ∧
    (s.any (fun n => n.id == a.id) = false → saveNote s a = a :: s) ∧
    (a.id ≠ b.id → saveNote (saveNote [] a) b = [b, a]) := by
  refine ⟨?_, saveNote_idem s a, ?_, ?_⟩
  · intro h
    unfold saveNote
    rw [if_pos h]
    exact ⟨List.length_map s _, fun i => List.getElem?_map _ s i⟩
  · intro h
    unfold saveNote
    rw [if_neg (by simp [h])]
  · intro hab
    have h1 : saveNote [] a = [a] := by
      unfold saveNote
      rw [if_neg (by simp)]
    rw [h1]
    unfold saveNote
    have : ([a].any (fun n => n.id == b.id)) = false := by
      simpa using hab
    rw [if_neg (by simp [this])]

/-- Witness for `saveNote_insert_or_replace` at concrete notes. -/
theorem saveNote_insert_or_replace_witness :
    ([noteA].any (fun n => n.id == noteA.id) = true ∧
      (saveNote [noteA] noteA).length = [noteA].length) ∧
    ([noteB].any (fun n => n.id == noteA.id) = false ∧
      saveNote [noteB] noteA = noteA :: [noteB]) ∧
    (noteA.id ≠ noteB.id ∧ saveNote (saveNote [] noteA) noteB = [noteB, noteA]) :=
  ⟨⟨by decide, ((saveNote_insert_or_replace [noteA] noteA noteB).1 (by decide)).1⟩,
   ⟨by decide, (saveNote_insert_or_replace [noteB] noteA noteB).2.2.1 (by decide)⟩,
   ⟨by decide, (saveNote_insert_or_replace [] noteA noteB).2.2.2 (by decide)⟩⟩

/-- C8: `addTag` with an input that trims to empty, or whose trimmed value is
already present, leaves the tags unchanged; adding "x" twice yields exactly
["x"]; and `addTag` preserves duplicate-freeness of the tags sequence. -/
theorem addTag_no_empty_no_duplicate (tags : List String) (input : String) :
    (jsTrim input = "" → addTag tags input = tags) ∧
    (tags.contains (jsTrim input) = true → addTag tags input = tags) ∧
    (addTag (addTag [] "x") "x" = ["x"]) ∧
    (tags.Nodup → (addTag tags input).Nodup) := by
  refine ⟨?_, ?_, by decide, ?_⟩
  · intro h
    unfold addTag
    rw [if_pos h]
  · intro h
    unfold addTag
    by_cases he : jsTrim input = ""
    · rw [if_pos he]
    · rw [if_neg he, if_pos h]
  · intro hnd
    unfold addTag
    by_cases he : jsTrim input = ""
    · rw [if_pos he]; exact hnd
    · rw [if_neg he]
      by_cases hc : tags.contains (jsTrim input) = true
      · rw [if_pos hc]; exact hnd
      · rw [if_neg hc]
        rw [List.nodup_append]
        refine ⟨hnd, List.nodup_singleton _, ?_⟩
        intro x hx hy
        have hxy : x = jsTrim input := by simpa using hy
        refine hc ?_
        simp only [List.contains]
        exact List.elem_iff.mpr (hxy ▸ hx)

/-- Witness for `addTag_no_empty_no_duplicate` at concrete inputs. -/
theorem addTag_no_empty_no_duplicate_witness :
    (jsTrim "  " = "" ∧ addTag ["a"] "  " = ["a"]) ∧
    (["x"].contains (jsTrim " x ") = true ∧ addTag ["x"] " x " = ["x"]) ∧
    (["a"] : List String).Nodup ∧ (addTag ["a"] "b").Nodup :=
  ⟨⟨by decide, (addTag_no_empty_no_duplicate ["a"] "  ").1 (by decide)⟩,
   ⟨by decide, (addTag_no_empty_no_duplicate ["x"] " x ").2.1 (by decide)⟩,
   by decide, (addTag_no_empty_no_duplicate ["a"] "b").2.2.2 (by decide)⟩

/-! ## Search: `filteredNotes` (src/voznote-ai/App.tsx lines 148-152 and
src/voznote-ai (1)/App.tsx lines 176-179) -/

/-- Leading-segment test on character lists (elementwise equality of a leading
segment), the building block of JS `String.prototype.includes`. -/
def startsWithL : List Char → List Char → Bool
  | _, [] => true
  | [], _ :: _ => false
  | a :: as, b :: bs => a == b && startsWithL as bs

/-- Contiguous-substring test on character lists. -/
def hasSubL : List Char → List Char → Bool
  | [], needle => needle.isEmpty
  | a :: t, needle => startsWithL (a :: t) needle || hasSubL t needle

/-- JS `String.prototype.toLowerCase()`. -/
def jsLower (s : String) : String := ⟨s.data.map Char.toLower⟩

/-- JS `hay.includes(needle)`: `needle` occurs contiguously in `hay`. -/
def jsIncludes (hay needle : String) : Bool := hasSubL hay.data needle.data

/-- The per-note predicate of `filteredNotes` in src/voznote-ai/App.tsx:
`n.title.toLowerCase().includes(q.toLowerCase()) || n.summary... || n.tags.some(...)`. -/
def matchesQueryVoz (searchQuery : String) (n : Note) : Bool :=
  jsIncludes (jsLower n.title) (jsLower searchQuery) ||
  jsIncludes (jsLower n.summary) (jsLower searchQuery) ||
  n.tags.any (fun t => jsIncludes (jsLower t) (jsLower searchQuery))

/-- The `filteredNotes` computation of the voznote-ai variant. -/
def filteredNotesVoz (notes : List Note) (searchQuery : String) : List Note :=
  notes.filter (matchesQueryVoz searchQuery)

/-- The per-note predicate of `filteredNotes` in src/voznote-ai (1)/App.tsx:
title and summary only — this variant does not consult `tags`. -/
def matchesQueryV1 (searchQuery : String) (n : Note) : Bool :=
  jsIncludes (jsLower n.title) (jsLower searchQuery) ||
  jsIncludes (jsLower n.summary) (jsLower searchQuery)

/-- The `filteredNotes` computation of the voznote-ai (1) variant. -/
def filteredNotesV1 (notes : List Note) (searchQuery : String) : List Note :=
  notes.filter (matchesQueryV1 searchQuery)

/-- Written from the words of the claim: a note matches when its `title`,
`summary`, or some `tags` entry contains the query as a case-insensitive
substring. -/
def claimMatches (query : String) (n : Note) : Bool :=
  jsIncludes (jsLower n.title) (jsLower query) ||
  jsIncludes (jsLower n.summary) (jsLower query) ||
  n.tags.any (fun t => jsIncludes (jsLower t) (jsLower query))

theorem jsIncludes_empty (hay : String) : jsIncludes hay "" = true := by
  unfold jsIncludes
  cases hhay : hay.data with
  | nil => rfl
  | cons a t => rfl

theorem jsLower_nil : jsLower "" = "" := rfl

/-- Concrete note matching the claimed search predicate only through its tag. -/
def noteTagged : Note :=
  { id := "1", title := "Standup", date := "", durationFormatted := "",
    transcription := "", summary := "", tags := ["billing"] }

/-- C5 counterexample: in the voznote-ai (1) variant, the store containing
only `noteTagged` (title "Standup", tag "billing") searched with "bill"
returns the empty list, while the claimed predicate (title, summary, or some
tag contains the query case-insensitively) selects exactly that note. -/
theorem filteredNotes_tags_counterexample :
    filteredNotesV1 [noteTagged] "bill" = [] ∧
    [noteTagged].filter (claimMatches "bill") = [noteTagged] := by
  constructor
  · decide
  · decide

/-- C5 (amended): in the voznote-ai variant, search returns exactly the
subsequence, in store order, of notes whose title, summary, or some tag
contains the query case-insensitively, and returns the whole store for the
empty query; in the voznote-ai (1) variant, search does the same but matches on
title and summary only (tags are not searched). -/
theorem filteredNotes_search_semantics (notes : List Note) (q : String) :
    filteredNotesVoz notes q = notes.filter (claimMatches q) ∧
    filteredNotesVoz notes "" = notes ∧
    filteredNotesV1 notes q = notes.filter (fun n =>
      jsIncludes (jsLower n.title) (jsLower q) ||
      jsIncludes (jsLower n.summary) (jsLower q)) ∧
    filteredNotesV1 notes "" = notes := by
  refine ⟨rfl, ?_, rfl, ?_⟩
  · apply List.filter_eq_self.mpr
    intro n _
    simp [matchesQueryVoz, jsLower_nil, jsIncludes_empty]
  · apply List.filter_eq_self.mpr
    intro n _
    simp [matchesQueryV1, jsLower_nil, jsIncludes_empty]

/-! ## AudioCapture chunk accumulation (src/App.tsx lines 128-132 and 168-177) -/

/-- Model of `mediaRecorder.ondataavailable`: `if (event.data.size > 0)
audioChunksRef.current.push(event.data)`. A chunk is its byte list. -/
def onDataAvailable (buf : List (List Nat)) (data : List Nat) : List (List Nat) :=
  if data.length > 0 then buf ++ [data] else buf

/-- Chunk buffer after all delivered chunks have passed `ondataavailable`,
starting from the empty buffer set in `startRecording`. -/
def accumulatedChunks (delivered : List (List Nat)) : List (List Nat) :=
  delivered.foldl onDataAvailable []

/-- Model of `new Blob(audioChunksRef.current, ...)`: the payload is the
concatenation of the buffered chunks. -/
def finalizedPayload (delivered : List (List Nat)) : List Nat :=
  (accumulatedChunks delivered).flatten

theorem foldl_onDataAvailable (delivered : List (List Nat)) :
    ∀ buf, delivered.foldl onDataAvailable buf =
      buf ++ delivered.filter (fun d => !d.isEmpty) := by
  induction delivered with
  | nil => intro buf; simp
  | cons d t ih =>
    intro buf
    rw [List.foldl_cons, ih]
    by_cases hd : d.length > 0
    · have h1 : onDataAvailable buf d = buf ++ [d] := by
        unfold onDataAvailable; rw [if_pos hd]
      have h2 : (!d.isEmpty) = true := by
        cases d with
        | nil => simp at hd
        | cons a t2 => rfl
      rw [h1, List.filter_cons, h2]
      simp
    · have h1 : onDataAvailable buf d = buf := by
        unfold onDataAvailable; rw [if_neg hd]
      have h2 : (!d.isEmpty) = false := by
        cases d with
        | nil => rfl
        | cons a t2 => simp at hd
      rw [h1, List.filter_cons, h2]
      simp

/-- C7: for every delivered chunk sequence, the finalized payload is the
concatenation of exactly the non-empty chunks in delivery order, its byte
length is the sum of the lengths of those chunks, and a zero-length chunk leaves
the buffer unchanged (ignored without error). -/
theorem finalizedPayload_concat_nonempty (delivered : List (List Nat)) :
    finalizedPayload delivered = (delivered.filter (fun d => !d.isEmpty)).flatten ∧
    (finalizedPayload delivered).length =
      ((delivered.filter (fun d => !d.isEmpty)).map List.length).sum ∧
    (∀ buf, onDataAvailable buf [] = buf) := by
  have h : finalizedPayload delivered =
      (delivered.filter (fun d => !d.isEmpty)).flatten := by
    unfold finalizedPayload accumulatedChunks
    rw [foldl_onDataAvailable delivered []]
    rfl
  exact ⟨h, by rw [h, List.length_flatten], fun buf => rfl⟩

/-! ## ProcessingPipeline status traces (src/App.tsx lines 181-222 and
src/voznote-ai/App.tsx lines 92-117)

`processAudio` writes `processingStatus` through `setProcessingStatus`.  A
service call result is `some text` on success and `none` on a thrown failure.
The spec-level session status adds `Capturing` for the phase in which
`isRecording` is true (the `ProcessingStatus` enum of `src/types.ts` has no
such value; during capture `processingStatus` stays `IDLE`). -/

/-- Session status as the state machine of the spec names it. -/
inductive SessionStatus where
  | Idle
  | Capturing
  | Transcribing
  | Summarizing
  | Completed
  | Error
deriving DecidableEq, Repr

/-- The `ProcessingStatus` values assigned, in program order, by the main
variant of `processAudio`: `TRANSCRIBING`; then either the catch path
(`ERROR`) — taken when the API key is missing or a service call throws — or
`SUMMARIZING` and onwards to `COMPLETED`; the `finally` block always ends
with `IDLE`. -/
def processAudioStatuses (apiKeyPresent : Bool) (transcribeResult summarizeResult : Option String) :
    List ProcessingStatus :=
  ProcessingStatus.TRANSCRIBING ::
    (if apiKeyPresent = false then [ProcessingStatus.ERROR, ProcessingStatus.IDLE]
     else
       match transcribeResult with
       | none => [ProcessingStatus.ERROR, ProcessingStatus.IDLE]
       | some _ =>
         ProcessingStatus.SUMMARIZING ::
           match summarizeResult with
           | none => [ProcessingStatus.ERROR, ProcessingStatus.IDLE]
           | some _ => [ProcessingStatus.COMPLETED, ProcessingStatus.IDLE])

/-- The `ProcessingStatus` values assigned by `processAudio` in the
voznote-ai variant: its catch block only alerts (no `ERROR` write) and the
success path never writes `COMPLETED`; the `finally` block writes `IDLE`. -/
def processAudioStatusesVoz (transcribeResult summarizeResult : Option String) :
    List ProcessingStatus :=
  ProcessingStatus.TRANSCRIBING ::
    (match transcribeResult with
     | none => [ProcessingStatus.IDLE]
     | some _ =>
       ProcessingStatus.SUMMARIZING ::
         match summarizeResult with
         | none => [ProcessingStatus.IDLE]
         | some _ => [ProcessingStatus.IDLE])

/-- Embed a `ProcessingStatus` write into the spec-level session status. -/
def toSessionStatus : ProcessingStatus → SessionStatus
  | ProcessingStatus.IDLE => SessionStatus.Idle
  | ProcessingStatus.TRANSCRIBING => SessionStatus.Transcribing
  | ProcessingStatus.SUMMARIZING => SessionStatus.Summarizing
  | ProcessingStatus.COMPLETED => SessionStatus.Completed
  | ProcessingStatus.ERROR => SessionStatus.Error

/-- Session-status trace of one full run of the main variant: `Idle` before
`startRecording`, `Capturing` while `isRecording` is true, then the statuses
written by `processAudio`. -/
def sessionTrace (apiKeyPresent : Bool) (transcribeResult summarizeResult : Option String) :
    List SessionStatus :=
  SessionStatus.Idle :: SessionStatus.Capturing ::
    (processAudioStatuses apiKeyPresent transcribeResult summarizeResult).map toSessionStatus

/-- Session-status trace of one full run of the voznote-ai variant. -/
def sessionTraceVoz (transcribeResult summarizeResult : Option String) :
    List SessionStatus :=
  SessionStatus.Idle :: SessionStatus.Capturing ::
    (processAudioStatusesVoz transcribeResult summarizeResult).map toSessionStatus

/-- The transitions the claimed state machine allows: the happy path
`Idle → Capturing → Transcribing → Summarizing → Completed → Idle`, drops
from `Capturing`/`Transcribing`/`Summarizing` to `Error`, and `Error → Idle`. -/
def specEdge : SessionStatus → SessionStatus → Bool
  | SessionStatus.Idle, SessionStatus.Capturing => true
  | SessionStatus.Capturing, SessionStatus.Transcribing => true
  | SessionStatus.Transcribing, SessionStatus.Summarizing => true
  | SessionStatus.Summarizing, SessionStatus.Completed => true
  | SessionStatus.Completed, SessionStatus.Idle => true
  | SessionStatus.Capturing, SessionStatus.Error => true
  | SessionStatus.Transcribing, SessionStatus.Error => true
  | SessionStatus.Summarizing, SessionStatus.Error => true
  | SessionStatus.Error, SessionStatus.Idle => true
  | _, _ => false

/-- Every adjacent pair of the trace is an allowed transition. -/
def chainOK : List SessionStatus → Bool
  | [] => true
  | [_] => true
  | a :: b :: t => specEdge a b && chainOK (b :: t)

/-- C1 counterexample: a voznote-ai run in which both services succeed
produces the status trace `Idle, Capturing, Transcribing, Summarizing, Idle`,
which skips `Completed` — its final step `Summarizing → Idle` is not a
transition of the claimed machine. -/
theorem sessionTrace_skips_completed_counterexample :
    sessionTraceVoz (some "hello world") (some "Summary") =
      [SessionStatus.Idle, SessionStatus.Capturing, SessionStatus.Transcribing,
       SessionStatus.Summarizing, SessionStatus.Idle] ∧
    chainOK (sessionTraceVoz (some "hello world") (some "Summary")) = false := by
  constructor
  · rfl
  · rfl

/-- C1 (amended): in the main variant, the session status follows the claimed
machine exactly — every adjacent transition is allowed, every run ends at
`Idle`, success runs pass through every stage including `Completed`, and each
failure drops to `Error` before `Idle`.  The voznote-ai variant still runs
`Idle → Capturing → Transcribing` in order and ends at `Idle`, but its
success path skips `Completed` and its failure paths skip `Error` (the
status falls straight back to `Idle`). -/
theorem sessionTrace_state_machine (k : Bool) (t su : Option String) (x y : String) :
    chainOK (sessionTrace k t su) = true ∧
    (sessionTrace k t su).getLast? = some SessionStatus.Idle ∧
    sessionTrace true (some x) (some y) =
      [SessionStatus.Idle, SessionStatus.Capturing, SessionStatus.Transcribing,
       SessionStatus.Summarizing, SessionStatus.Completed, SessionStatus.Idle] ∧
    sessionTrace true none su =
      [SessionStatus.Idle, SessionStatus.Capturing, SessionStatus.Transcribing,
       SessionStatus.Error, SessionStatus.Idle] ∧
    sessionTrace true (some x) none =
      [SessionStatus.Idle, SessionStatus.Capturing, SessionStatus.Transcribing,
       SessionStatus.Summarizing, SessionStatus.Error, SessionStatus.Idle] ∧
    sessionTrace false t su =
      [SessionStatus.Idle, SessionStatus.Capturing, SessionStatus.Transcribing,
       SessionStatus.Error, SessionStatus.Idle] ∧
    sessionTraceVoz (some x) (some y) =
      [SessionStatus.Idle, SessionStatus.Capturing, SessionStatus.Transcribing,
       SessionStatus.Summarizing, SessionStatus.Idle] ∧
    sessionTraceVoz none su =
      [SessionStatus.Idle, SessionStatus.Capturing, SessionStatus.Transcribing,
       SessionStatus.Idle] ∧
    sessionTraceVoz (some x) none =
      [SessionStatus.Idle, SessionStatus.Capturing, SessionStatus.Transcribing,
       SessionStatus.Summarizing, SessionStatus.Idle] ∧
    (sessionTraceVoz t su).getLast? = some SessionStatus.Idle ∧
    SessionStatus.Completed ∉ sessionTraceVoz t su ∧
    SessionStatus.Error ∉ sessionTraceVoz t su := by
  cases k <;> cases t <;> cases su <;>
    refine ⟨rfl, rfl, rfl, ?_, rfl, ?_, rfl, ?_, rfl, rfl,
      by simp [sessionTraceVoz, processAudioStatusesVoz, toSessionStatus],
      by simp [sessionTraceVoz, processAudioStatusesVoz, toSessionStatus]⟩ <;> rfl

/-! ## Capture start/stop (src/App.tsx lines 114-179) -/

/-- Failure modes named by the spec for starting a session. The code only
ever produces `DeviceUnavailable` (the `getUserMedia` catch);
`AlreadyRunning` is declared so the claim about it can be stated. -/
inductive StartError where
  | DeviceUnavailable
  | AlreadyRunning
deriving DecidableEq, Repr

/-- The capture-session state touched by `startRecording`: `isRecording`,
`recordingDuration`, and the accumulated `audioChunksRef` buffer. -/
structure SessionState where
  isRecording : Bool
  recordingDuration : Nat
  chunks : List (List Nat)
deriving DecidableEq, Repr

/-- Model of `startRecording` (src/App.tsx lines 114-156): there is no check of any
current session.  On device success it unconditionally sets
`audioChunksRef.current = []`, `setIsRecording(true)`,
`setRecordingDuration(0)`; on `getUserMedia` failure the catch alerts and the
state is left as it was (surfaced here as `DeviceUnavailable`). -/
def startRecording (deviceOk : Bool) (st : SessionState) :
    Except StartError SessionState :=
  if deviceOk then
    Except.ok { isRecording := true, recordingDuration := 0, chunks := [] }
  else
    Except.error StartError.DeviceUnavailable

/-- The capture error named by the spec for finalizing with no chunks.  The
code never produces it; it is declared so the claim can be stated. -/
inductive CaptureError where
  | EmptyCapture
deriving DecidableEq, Repr

/-- Outcome of the `onstop` handler in `stopRecording`. -/
structure FinalizeOutcome where
  payload : List Nat
  micReleased : Bool
  processingStarted : Bool
deriving DecidableEq, Repr

/-- The `onstop` handler of `stopRecording` (src/App.tsx lines 168-177):
unconditionally builds `new Blob(audioChunksRef.current, { type })`, stops
every track of the stream, and calls `processAudio` — there is no chunk-count
check, so the result is never an error. -/
def stopOnstop (chunks : List (List Nat)) : Except CaptureError FinalizeOutcome :=
  Except.ok { payload := chunks.flatten, micReleased := true, processingStarted := true }

/-- Model of `stopRecording` (src/App.tsx lines 158-179): guarded by
`mediaRecorderRef.current && isRecording`; when active it stops the recorder,
sets `isRecording` to false, clears the timer, and the `onstop` handler
finalizes the chunks. -/
def stopRecording (st : SessionState) :
    SessionState × Option (Except CaptureError FinalizeOutcome) :=
  if st.isRecording then
    ({ st with isRecording := false }, some (stopOnstop st.chunks))
  else
    (st, none)

/-- C2 counterexample: finalizing a capture with zero accumulated chunks does
not fail with `EmptyCapture` — the `onstop` handler returns an empty payload
and hands it to `processAudio`. -/
theorem stopOnstop_empty_counterexample :
    stopOnstop [] ≠ Except.error CaptureError.EmptyCapture ∧
    stopOnstop [] = Except.ok
      { payload := [], micReleased := true, processingStarted := true } := by
  constructor
  · intro h
    exact Except.noConfusion h
  · rfl

/-- C2 (amended): stopping an active recording never fails: it always clears
`isRecording`, releases the microphone, concatenates whatever chunks were
accumulated — an empty payload when there were none — and starts processing;
no `EmptyCapture` error exists in the code. -/
theorem stopRecording_no_empty_check (st : SessionState)
    (h : st.isRecording = true) :
    stopRecording st =
      ({ st with isRecording := false },
       some (Except.ok { payload := st.chunks.flatten, micReleased := true,
                         processingStarted := true })) ∧
    (st.chunks = [] →
      stopRecording st =
        ({ st with isRecording := false },
         some (Except.ok { payload := [], micReleased := true,
                           processingStarted := true }))) := by
  constructor
  · unfold stopRecording
    rw [if_pos h]
    rfl
  · intro hc
    unfold stopRecording
    rw [if_pos h, hc]
    rfl

/-- Witness for `stopRecording_no_empty_check` on a recording state with zero
chunks. -/
theorem stopRecording_no_empty_check_witness :
    (SessionState.mk true 7 []).isRecording = true ∧
    (SessionState.mk true 7 []).chunks = [] ∧
    stopRecording (SessionState.mk true 7 []) =
      ({ SessionState.mk true 7 [] with isRecording := false },
       some (Except.ok { payload := [], micReleased := true,
                         processingStarted := true })) :=
  ⟨rfl, rfl, (stopRecording_no_empty_check (SessionState.mk true 7 []) rfl).2 rfl⟩

/-- C3 counterexample: calling `startRecording` while a session is active
(recording, 5 elapsed seconds, one accumulated chunk) does not fail with
`AlreadyRunning`; it succeeds and clobbers the state of the active session,
resetting the duration and the chunk buffer. -/
theorem startRecording_while_active_counterexample :
    startRecording true (SessionState.mk true 5 [[1]]) =
      Except.ok (SessionState.mk true 0 []) ∧
    startRecording true (SessionState.mk true 5 [[1]]) ≠
      Except.error StartError.AlreadyRunning ∧
    SessionState.mk true 0 [] ≠ SessionState.mk true 5 [[1]] := by
  refine ⟨rfl, ?_, by decide⟩
  intro h
  exact Except.noConfusion h

/-- C3 (amended): `startRecording` performs no single-flight check and never
fails with `AlreadyRunning`: whatever the current state, on device success it
starts a fresh capture with `isRecording` true, duration 0 and an empty chunk
buffer (discarding the accumulated state of any active session), and on device
failure it fails with `DeviceUnavailable` only. -/
theorem startRecording_no_single_flight (st : SessionState) (deviceOk : Bool) :
    startRecording deviceOk st ≠ Except.error StartError.AlreadyRunning ∧
    (deviceOk = true →
      startRecording deviceOk st = Except.ok (SessionState.mk true 0 [])) ∧
    (deviceOk = false →
      startRecording deviceOk st = Except.error StartError.DeviceUnavailable) := by
  cases deviceOk with
  | false =>
    refine ⟨?_, ?_, ?_⟩
    · intro h
      have hco : StartError.DeviceUnavailable = StartError.AlreadyRunning :=
        Except.error.inj h
      exact StartError.noConfusion hco
    · intro h
      exact Bool.noConfusion h
    · intro _
      rfl
  | true =>
    refine ⟨?_, ?_, ?_⟩
    · intro h
      exact Except.noConfusion h
    · intro _
      rfl
    · intro h
      exact Bool.noConfusion h

/-- Witness for `startRecording_no_single_flight` on an active session. -/
theorem startRecording_no_single_flight_witness :
    startRecording true (SessionState.mk true 5 [[1]]) =
      Except.ok (SessionState.mk true 0 []) ∧
    startRecording false (SessionState.mk true 5 [[1]]) =
      Except.error StartError.DeviceUnavailable :=
  ⟨(startRecording_no_single_flight (SessionState.mk true 5 [[1]]) true).2.1 rfl,
   (startRecording_no_single_flight (SessionState.mk true 5 [[1]]) false).2.2 rfl⟩

/-! ## Loading notes at startup (src/App.tsx lines 73-82,
src/voznote-ai/App.tsx lines 39-42, src/voznote-ai (1)/App.tsx lines 40-46)

`parse` models `JSON.parse` composed with the notes deserialization: `none`
means the parse throws on that string.  The `Except.error` branch is an
exception propagating out of the load effect. -/

/-- The load effect of the main variant:
`const saved = localStorage.getItem(..); if (saved) { try { setNotes(JSON.parse(saved)) } catch (e) { console.error(..) } }` —
absent and corrupt input both leave the initial `[]`. -/
def loadNotesMain (parse : String → Option (List Note)) (saved : Option String) :
    Except Unit (List Note) :=
  match saved with
  | none => Except.ok []
  | some s =>
    match parse s with
    | some notes => Except.ok notes
    | none => Except.ok []

/-- The load effect of the voznote-ai variants:
`const saved = localStorage.getItem(..); if (saved) setNotes(JSON.parse(saved));` —
no try/catch, so a corrupt string makes `JSON.parse` throw out of the effect. -/
def loadNotesVoz (parse : String → Option (List Note)) (saved : Option String) :
    Except Unit (List Note) :=
  match saved with
  | none => Except.ok []
  | some s =>
    match parse s with
    | some notes => Except.ok notes
    | none => Except.error ()

/-- C6 counterexample: in the voznote-ai variants, corrupt persisted input
(a string every parse rejects) makes the load effect propagate the
`JSON.parse` exception instead of yielding the empty collection. -/
theorem loadNotesVoz_corrupt_counterexample :
    loadNotesVoz (fun _ => none) (some "corrupt") = Except.error () ∧
    loadNotesVoz (fun _ => none) (some "corrupt") ≠ Except.ok [] := by
  constructor
  · rfl
  · intro h
    exact Except.noConfusion h

/-- C6 (amended): the startup load of the main variant never propagates an error —
absent storage and corrupt input both yield the empty collection, and a
successful parse yields exactly the parsed notes.  The voznote-ai variants
yield the empty collection only for absent storage; corrupt input propagates
the parse exception. -/
theorem loadNotes_startup (parse : String → Option (List Note)) (s : String)
    (notes : List Note) :
    loadNotesMain parse none = Except.ok [] ∧
    (parse s = none → loadNotesMain parse (some s) = Except.ok []) ∧
    (parse s = some notes → loadNotesMain parse (some s) = Except.ok notes) ∧
    loadNotesVoz parse none = Except.ok [] ∧
    (parse s = none → loadNotesVoz parse (some s) = Except.error ()) := by
  refine ⟨rfl, ?_, ?_, rfl, ?_⟩
  · intro h
    show (match parse s with
          | some notes => Except.ok notes
          | none => Except.ok ([] : List Note)) = Except.ok []
    rw [h]
  · intro h
    show (match parse s with
          | some notes => Except.ok notes
          | none => Except.ok ([] : List Note)) = Except.ok notes
    rw [h]
  · intro h
    show (match parse s with
          | some notes => Except.ok notes
          | none => Except.error ()) = Except.error ()
    rw [h]

/-- Witness for `loadNotes_startup` with a parse that accepts exactly the
literal "[]" as the empty collection. -/
theorem loadNotes_startup_witness :
    ((fun t => if t = "[]" then some ([] : List Note) else none) "x" = none ∧
      loadNotesMain (fun t => if t = "[]" then some ([] : List Note) else none)
        (some "x") = Except.ok []) ∧
    ((fun t => if t = "[]" then some ([] : List Note) else none) "[]" =
        some ([] : List Note) ∧
      loadNotesMain (fun t => if t = "[]" then some ([] : List Note) else none)
        (some "[]") = Except.ok []) ∧
    loadNotesVoz (fun t => if t = "[]" then some ([] : List Note) else none)
        (some "x") = Except.error () :=
  ⟨⟨by decide,
    (loadNotes_startup (fun t => if t = "[]" then some ([] : List Note) else none)
      "x" []).2.1 (by decide)⟩,
   ⟨by decide,
    (loadNotes_startup (fun t => if t = "[]" then some ([] : List Note) else none)
      "[]" []).2.2.1 (by decide)⟩,
   (loadNotes_startup (fun t => if t = "[]" then some ([] : List Note) else none)
      "x" []).2.2.2.2 (by decide)⟩

/-! ## Duration formatting: `formatTime` (src/App.tsx lines 89-93; identical
in the other variants) -/

/-- JS `String.prototype.padStart(targetLength, padChar)`. -/
def padStart (s : String) (targetLength : Nat) (padChar : Char) : String :=
  ⟨List.replicate (targetLength - s.data.length) padChar ++ s.data⟩

/-- Model of `formatTime`: `const mins = Math.floor(seconds / 60); const secs = seconds % 60;`
then both rendered with `.toString().padStart(2, "0")` around a colon. -/
def formatTime (seconds : Nat) : String :=
  padStart (Nat.repr (seconds / 60)) 2 '0' ++ ":" ++ padStart (Nat.repr (seconds % 60)) 2 '0'

/-- Zero-padding as the claim words it: pad on the left with zeros to at
least two characters (a longer numeral is kept as is). -/
def leftPadTwo (s : String) : String :=
  if s.length < 2 then ⟨List.replicate (2 - s.length) '0' ++ s.data⟩ else s

/-- The duration format as the claim words it: the decimal minutes
`floor(s / 60)` zero-padded to at least two digits, a colon, the decimal
seconds `s mod 60` zero-padded to two digits. -/
def claimDurationFormat (s : Nat) : String :=
  leftPadTwo (Nat.repr (s / 60)) ++ ":" ++ leftPadTwo (Nat.repr (s % 60))

theorem padStart_eq_leftPadTwo (s : String) : padStart s 2 '0' = leftPadTwo s := by
  unfold padStart leftPadTwo
  by_cases h : s.length < 2
  · rw [if_pos h]
    rfl
  · rw [if_neg h]
    have hlen : 2 - s.data.length = 0 := by
      have hds : s.data.length = s.length := rfl
      omega
    rw [hlen, List.replicate_zero, List.nil_append]

theorem padStart_two_length (s : String) (c : Char) :
    (padStart s 2 c).length = max 2 s.length := by
  show (List.replicate (2 - s.data.length) c ++ s.data).length = max 2 s.data.length
  rw [List.length_append, List.length_replicate]
  omega

theorem repr_length_le_two (n : Nat) (h : n < 60) : (Nat.repr n).length ≤ 2 := by
  have hall : ∀ m : Nat, m < 60 → (Nat.repr m).length ≤ 2 := by decide
  exact hall n h

/-- C9: `formatTime` renders minutes `floor(s / 60)` zero-padded to at least
two digits, a colon, and seconds `s mod 60` zero-padded to exactly two
digits; long durations widen the minutes field instead of rolling over to
hours (3600 s renders as "60:00" and 6000 s as "100:00"). -/
theorem formatTime_minutes_colon_seconds (s : Nat) :
    formatTime s = claimDurationFormat s ∧
    formatTime s =
      padStart (Nat.repr (s / 60)) 2 '0' ++ ":" ++ padStart (Nat.repr (s % 60)) 2 '0' ∧
    (padStart (Nat.repr (s % 60)) 2 '0').length = 2 ∧
    2 ≤ (padStart (Nat.repr (s / 60)) 2 '0').length ∧
    formatTime 3600 = "60:00" ∧
    formatTime 6000 = "100:00" := by
  refine ⟨?_, rfl, ?_, ?_, by decide, by decide⟩
  · unfold formatTime claimDurationFormat
    rw [padStart_eq_leftPadTwo, padStart_eq_leftPadTwo]
  · rw [padStart_two_length]
    have := repr_length_le_two (s % 60) (Nat.mod_lt s (by norm_num))
    omega
  · rw [padStart_two_length]
    exact Nat.le_max_left 2 _

/-! ## Service response handling (src/services/ai.ts lines 51 and 93,
src/voznote-ai/services/geminiService.ts lines 43 and 76) -/

/-- JS `a || b` where `a` is a possibly-undefined string (`none` models
undefined; an empty string is falsy and also falls through to `b`). -/
def jsOrString (a : Option String) (b : String) : String :=
  match a with
  | none => b
  | some s => if s = "" then b else s

/-- Success-path return value of `transcribeAudio`: `return response.text || "";`. -/
def transcribeAudioReturn (responseText : Option String) : String :=
  jsOrString responseText ""

/-- Success-path return value of `summarizeText`: `return response.text || "";`. -/
def summarizeTextReturn (responseText : Option String) : String :=
  jsOrString responseText ""

/-- The draft note `processAudio` materializes on success (src/App.tsx lines
197-205): transcription and summary come from the two service calls; id,
title and date come from `Date` and are opaque here. -/
def newNoteOf (idStr titleStr dateStr : String) (recordingDuration : Nat)
    (transcribeResp summarizeResp : Option String) : Note :=
  { id := idStr, title := titleStr, date := dateStr,
    durationFormatted := formatTime recordingDuration,
    transcription := transcribeAudioReturn transcribeResp,
    summary := summarizeTextReturn summarizeResp,
    tags := [] }

/-- C10: when a successful service response carries no text, both
`transcribeAudio` and `summarizeText` return the empty string (never an
undefined value: the return is the response text itself or the empty
string), so the transcription and summary of the materialized draft note are
always the strings those functions return. -/
theorem serviceText_never_undefined (tR sR : Option String) :
    (tR = none → transcribeAudioReturn tR = "") ∧
    (sR = none → summarizeTextReturn sR = "") ∧
    (∀ t, tR = some t →
      transcribeAudioReturn tR = t ∨ transcribeAudioReturn tR = "") ∧
    (∀ i ti d dur,
      (newNoteOf i ti d dur tR sR).transcription = transcribeAudioReturn tR ∧
      (newNoteOf i ti d dur tR sR).summary = summarizeTextReturn sR) := by
  refine ⟨?_, ?_, ?_, fun i ti d dur => ⟨rfl, rfl⟩⟩
  · intro h
    rw [h]
    rfl
  · intro h
    rw [h]
    rfl
  · intro t ht
    rw [ht]
    show (if t = "" then "" else t) = t ∨ (if t = "" then "" else t) = ""
    by_cases he : t = ""
    · right
      rw [if_pos he]
    · left
      rw [if_neg he]

/-- Witness for `serviceText_never_undefined` at a response with no text and
one with text. -/
theorem serviceText_never_undefined_witness :
    transcribeAudioReturn none = "" ∧
    summarizeTextReturn none = "" ∧
    (transcribeAudioReturn (some "hello") = "hello" ∨
      transcribeAudioReturn (some "hello") = "") :=
  ⟨(serviceText_never_undefined none none).1 rfl,
   (serviceText_never_undefined none none).2.1 rfl,
   (serviceText_never_undefined (some "hello") none).2.2.1 "hello" rfl⟩

end VozNote
